import Mathlib

/-!
Shallow embedding of the POS dual-write ingestion core of the
cs-rep-receipts-lookup repository:

* `src/pos_integration/models.py` — event model and validators
  (`POSLineItem`, `POSReceiptEvent`, `DualWriteResult`);
* `src/pos_integration/dual_write_handler.py` — the dual-write
  orchestrator (`DualWriteHandler.write_receipt`, `write_batch`,
  `_write_to_lakebase`);
* `src/pipelines/sync_to_lakebase.py` — the reconciliation scanner
  (`reconcile_gaps`).

Python conventions mirrored here:

* pydantic construction is modelled as a function returning
  `Except String α`: `.error` is a raised `ValidationError`, `.ok` the
  validated model.  Per-field constraints (`ge=0`, `Literal[...]`) run
  before `@model_validator(mode="after")` hooks, in field order, and a
  model validator is reached only when field validation passed.
* Python `float` fields (the line-item `quantity`) are modelled as `Rat`:
  every concrete value appearing in the code and claims is exactly
  representable, and the only operations used are comparison with 0 and 1
  and `%.0f` formatting (round half to even).
* Python truthiness of `Optional[str]` (`not self.upc`): `None` and `""`
  are falsy.
* Monetary fields are `Int` (cents), exactly as the source declares them.
-/

/-- Python truthiness of an `Optional[str]`: `None` and `""` are falsy. -/
def pyTruthy : Option String → Bool
  | none => false
  | some s => !s.isEmpty

/-- One line item of a receipt, after validation
(`POSLineItem` in `src/pos_integration/models.py`). -/
structure POSLineItem where
  upc : Option String
  sku : Option String
  product_desc : String
  quantity : Rat
  unit_price_cents : Int
  extended_cents : Int
  discount_cents : Int
  department_code : Option String
deriving Repr, DecidableEq

/-- pydantic construction of `POSLineItem`: per-field `ge=0` constraints
(in field order: `quantity`, `unit_price_cents`, `extended_cents`,
`discount_cents`), then the `upc_or_sku_required` model validator, which
rejects when both identifiers are falsy (`not self.upc and not self.sku`). -/
def mkPOSLineItem (upc sku : Option String) (product_desc : String)
    (quantity : Rat) (unit_price_cents extended_cents discount_cents : Int)
    (department_code : Option String) : Except String POSLineItem :=
  if quantity < 0 then
    .error "quantity: Input should be greater than or equal to 0"
  else if unit_price_cents < 0 then
    .error "unit_price_cents: Input should be greater than or equal to 0"
  else if extended_cents < 0 then
    .error "extended_cents: Input should be greater than or equal to 0"
  else if discount_cents < 0 then
    .error "discount_cents: Input should be greater than or equal to 0"
  else if !pyTruthy upc && !pyTruthy sku then
    .error "Each line item must have at least a upc or sku"
  else
    .ok ⟨upc, sku, product_desc, quantity, unit_price_cents, extended_cents,
         discount_cents, department_code⟩

/-- Python `round` to 0 decimals as used by the `f"{q:.0f}"` format:
round half to even. -/
def roundHalfEven (q : Rat) : Int :=
  let f := ⌊q⌋
  if q - f < 1/2 then f
  else if q - f > 1/2 then f + 1
  else if f % 2 = 0 then f else f + 1

/-- `POSLineItem.item_summary_fragment`: `"{qty:.0f}x {desc}"` when the
quantity differs from 1, else just the description. -/
def item_summary_fragment (it : POSLineItem) : String :=
  let qty := if it.quantity ≠ 1 then toString (roundHalfEven it.quantity) ++ "x " else ""
  qty ++ it.product_desc

/-- Allowed `tender_type` literals of `POSReceiptEvent`. -/
def tenderTypes : List String := ["CREDIT", "DEBIT", "CASH", "EBT", "CHECK", "GIFT"]

/-- A validated receipt event
(`POSReceiptEvent` in `src/pos_integration/models.py`).  Timestamps are
modelled as integer epoch seconds. -/
structure POSReceiptEvent where
  transaction_id : String
  store_id : String
  store_name : String
  pos_terminal_id : Option String
  cashier_id : Option String
  customer_id : Option String
  transaction_ts : Int
  subtotal_cents : Option Int
  tax_cents : Option Int
  total_cents : Int
  tender_type : Option String
  card_last4 : Option String
  items : List POSLineItem
deriving Repr, DecidableEq

/-- Python `str.strip()`: drop leading and trailing whitespace. -/
def pyStrip (l : List Char) : List Char :=
  (((l.dropWhile Char.isWhitespace).reverse).dropWhile Char.isWhitespace).reverse

/-- `POSReceiptEvent.strip_card_last4` (a `mode="before"` field validator):
`None` stays `None`; otherwise strip the string, keep its digit characters
(`c.isdigit()`), and return the trailing 4 (`digits[-4:]`) when at least 4
remain, else `None`. -/
def strip_card_last4 : Option String → Option String
  | none => none
  | some v =>
    let digits := (pyStrip v.toList).filter Char.isDigit
    if digits.length ≥ 4 then some (String.mk (digits.drop (digits.length - 4)))
    else none

/-- The `validate_total` model validator of `POSReceiptEvent`: when both
`subtotal_cents` and `tax_cents` are provided and
`abs((subtotal + tax) - total) > 5`, raise; otherwise accept. -/
def validate_total (e : POSReceiptEvent) : Except String POSReceiptEvent :=
  match e.subtotal_cents, e.tax_cents with
  | some s, some t =>
    if (s + t - e.total_cents).natAbs > 5 then
      .error "subtotal_cents + tax_cents does not equal total_cents within 5 cents"
    else .ok e
  | _, _ => .ok e

/-- Whether an optional `tender_type` input passes the
`Literal["CREDIT", "DEBIT", "CASH", "EBT", "CHECK", "GIFT"]` constraint. -/
def tenderOk : Option String → Bool
  | none => true
  | some s => tenderTypes.contains s

/-- pydantic construction of `POSReceiptEvent`: per-field constraints
(`ge=0` on the three amount fields, the tender literal, and
`strip_card_last4` normalisation — which always yields `None` or exactly
4 digits, so the `min_length=4, max_length=4, pattern` constraints on the
normalised value never fail), then the `validate_total` model validator.
Line items arrive already validated (`items : List POSLineItem`). -/
def mkPOSReceiptEvent (transaction_id store_id store_name : String)
    (pos_terminal_id cashier_id customer_id : Option String)
    (transaction_ts : Int) (subtotal_cents tax_cents : Option Int)
    (total_cents : Int) (tender_type : Option String)
    (card_last4_raw : Option String) (items : List POSLineItem) :
    Except String POSReceiptEvent :=
  if (subtotal_cents.map (fun n => decide (n < 0))).getD false then
    .error "subtotal_cents: Input should be greater than or equal to 0"
  else if (tax_cents.map (fun n => decide (n < 0))).getD false then
    .error "tax_cents: Input should be greater than or equal to 0"
  else if total_cents < 0 then
    .error "total_cents: Input should be greater than or equal to 0"
  else if !tenderOk tender_type then
    .error "tender_type: Input should be one of the allowed literals"
  else
    validate_total ⟨transaction_id, store_id, store_name, pos_terminal_id,
      cashier_id, customer_id, transaction_ts, subtotal_cents, tax_cents,
      total_cents, tender_type, strip_card_last4 card_last4_raw, items⟩

/-- `POSReceiptEvent.item_count` (derived property). -/
def item_count (e : POSReceiptEvent) : Nat := e.items.length

/-- `POSReceiptEvent.item_summary` (derived property): first 3 item
fragments joined by `", "`, plus `" + N more"` when more than 3 items. -/
def item_summary (e : POSReceiptEvent) : String :=
  let top := e.items.take 3
  let summary := String.intercalate ", " (top.map item_summary_fragment)
  if e.items.length > 3 then
    summary ++ " + " ++ toString (e.items.length - 3) ++ " more"
  else summary

/-- One row of the Lakebase `receipt_transactions` table, with the 15
columns of the `INSERT` in `DualWriteHandler._write_to_lakebase`
(`raw_items` is the JSONB payload, modelled by its content, the list of
serialised line items). -/
structure ReceiptRow where
  transaction_id : String
  store_id : String
  store_name : String
  pos_terminal_id : Option String
  cashier_id : Option String
  customer_id : Option String
  transaction_ts : Int
  subtotal_cents : Option Int
  tax_cents : Option Int
  total_cents : Int
  tender_type : Option String
  card_last4 : Option String
  item_count : Nat
  item_summary : String
  raw_items : List POSLineItem
deriving Repr, DecidableEq

/-- The row that `_write_to_lakebase` binds into its `INSERT` for a given
receipt (the parameter dict of the query, column by column). -/
def rowOf (r : POSReceiptEvent) : ReceiptRow :=
  ⟨r.transaction_id, r.store_id, r.store_name, r.pos_terminal_id,
   r.cashier_id, r.customer_id, r.transaction_ts, r.subtotal_cents,
   r.tax_cents, r.total_cents, r.tender_type, r.card_last4,
   item_count r, item_summary r, r.items⟩

/-- `DualWriteHandler._write_to_lakebase`: effect of the
`INSERT ... ON CONFLICT (transaction_id) DO NOTHING` on the operational
store (modelled as the list of rows of `receipt_transactions`).  If a row
with the receipt's `transaction_id` already exists the statement is a
no-op; otherwise the bound row is appended. -/
def write_to_lakebase (store : List ReceiptRow) (receipt : POSReceiptEvent) :
    List ReceiptRow :=
  if store.any (fun row => row.transaction_id == receipt.transaction_id) then store
  else store ++ [rowOf receipt]

/-- Per-path sub-result dict (`lakebase_result` / `zerobus_result` in
`DualWriteHandler.write_receipt`): a `status` string plus the optional
`error`, `ack_timestamp` and `event_id` keys. -/
structure SubResult where
  status : String
  error : Option String
  ack_timestamp : Option String
  event_id : Option String
deriving Repr, DecidableEq

/-- `DualWriteResult` (models.py): aggregate outcome returned to the POS
caller. -/
structure DualWriteResult where
  transaction_id : String
  lakebase : SubResult
  zerobus : SubResult
  overall_status : String
deriving Repr, DecidableEq

/-- The acknowledgment dict returned by
`ZerobusReceiptIngester.ingest_receipt` (the keys `write_receipt` reads:
`receipts_ack` and `event_id`). -/
structure ZbAck where
  receipts_ack : Option String
  event_id : Option String
deriving Repr, DecidableEq

/-- Environment of one `write_receipt` call: the outcome of the Lakebase
critical path (pool acquisition + `_write_to_lakebase` + commit, which
either completes or raises with a message) and the outcome of
`self.zerobus.ingest_receipt` (acknowledgment dict, or a raised message). -/
structure DualWriteEnv where
  lakebase_outcome : Except String Unit
  zerobus_outcome : Except String ZbAck
deriving Repr

/-- `DualWriteHandler.write_receipt`.  Returns the Python outcome — a
raised exception (`.error`) or the returned `DualWriteResult` (`.ok`) —
paired with the number of times `self.zerobus.ingest_receipt` was invoked
during the call.  Mirrors the source: the Lakebase step runs first; on its
failure a `RuntimeError` is raised and the Zerobus step is never reached;
otherwise the Zerobus step runs once, its failure is caught and folded
into a `"failed"` sub-result, and `overall` is `"success"` exactly when
the Zerobus sub-result's status is `"success"`, else `"partial"`. -/
def write_receipt (env : DualWriteEnv) (receipt : POSReceiptEvent) :
    Except String DualWriteResult × Nat :=
  match env.lakebase_outcome with
  | .error exc =>
    (.error ("Critical path (Lakebase) failed for " ++ receipt.transaction_id
      ++ ": " ++ exc), 0)
  | .ok _ =>
    let lakebase_result : SubResult := ⟨"success", none, none, none⟩
    let zerobus_result : SubResult :=
      match env.zerobus_outcome with
      | .ok zb => ⟨"success", none, zb.receipts_ack, zb.event_id⟩
      | .error exc => ⟨"failed", some exc, none, none⟩
    let overall := if zerobus_result.status == "success" then "success" else "partial"
    (.ok ⟨receipt.transaction_id, lakebase_result, zerobus_result, overall⟩, 1)

/-- `DualWriteHandler.write_batch`: `asyncio.gather` over
`write_receipt` per input item with `return_exceptions=True` — the list of
per-item outcomes (result or captured exception), aligned with input
order.  Each batch item carries its own call environment. -/
def write_batch (items : List (DualWriteEnv × POSReceiptEvent)) :
    List (Except String DualWriteResult) :=
  items.map (fun p => (write_receipt p.1 p.2).1)

/-- A row of the Lakebase-native `receipt_transactions` table as read by
the reconciliation query (only the two columns it touches). -/
structure RtRow where
  transaction_id : String
  transaction_ts : Int
deriving Repr, DecidableEq

/-- `reconcile_gaps`' report dict (`src/pipelines/sync_to_lakebase.py`). -/
structure GapReport where
  gap_count : Nat
  oldest_missing_ts : Option Int
  newest_missing_ts : Option Int
  lookback_hours : Int
  recommendation : String
deriving Repr, DecidableEq

/-- Minimum of a list of timestamps (SQL `MIN`, `NULL` on empty input). -/
def listMin : List Int → Option Int
  | [] => none
  | x :: xs =>
    match listMin xs with
    | none => some x
    | some m => some (min x m)

/-- Maximum of a list of timestamps (SQL `MAX`, `NULL` on empty input). -/
def listMax : List Int → Option Int
  | [] => none
  | x :: xs =>
    match listMax xs with
    | none => some x
    | some m => some (max x m)

/-- The rows selected by the reconciliation query: rows of
`receipt_transactions` whose `transaction_ts` lies within the lookback
window (`rt.transaction_ts >= NOW() - INTERVAL 'lookback_hours hours'`,
timestamps in epoch seconds) and whose `transaction_id` has no match in
`receipt_lookup` (`LEFT JOIN ... WHERE rl.transaction_id IS NULL`). -/
def gapRows (now lookback_hours : Int) (rt : List RtRow) (rl : List String) :
    List RtRow :=
  rt.filter (fun r =>
    decide (now - lookback_hours * 3600 ≤ r.transaction_ts)
      && !rl.contains r.transaction_id)

/-- `reconcile_gaps` (`src/pipelines/sync_to_lakebase.py`): runs the
left-anti-join aggregate query and assembles the report dict.
`COUNT(*)` is the number of gap rows, `MIN`/`MAX` their timestamp bounds
(`None` when no gap), and the recommendation string depends on whether
`gap_count > 0`.  The source's default for `lookback_hours` is 24. -/
def reconcile_gaps (now : Int) (rt : List RtRow) (rl : List String)
    (lookback_hours : Int) : GapReport :=
  let gaps := gapRows now lookback_hours rt rl
  ⟨gaps.length,
   listMin (gaps.map (fun r => r.transaction_ts)),
   listMax (gaps.map (fun r => r.transaction_ts)),
   lookback_hours,
   if gaps.length > 0 then
     "Gap detected — consider triggering a Gold pipeline refresh."
   else "No gap detected. Synced tables are current."⟩

/-- A concrete valid receipt event used to instantiate theorems. -/
def sampleReceipt : POSReceiptEvent :=
  ⟨"TXN-1001", "STORE-247", "East Liberty", none, none, none, 1700000000,
   some 1757, some 105, 1862, none, none, []⟩

/-- A second concrete valid receipt event (distinct transaction). -/
def sampleReceipt2 : POSReceiptEvent :=
  ⟨"TXN-1002", "STORE-247", "East Liberty", none, none, none, 1700000100,
   some 1000, some 80, 1080, none, none, []⟩

/-- A third concrete valid receipt event (distinct transaction). -/
def sampleReceipt3 : POSReceiptEvent :=
  ⟨"TXN-1003", "STORE-247", "East Liberty", none, none, none, 1700000200,
   some 500, some 30, 530, none, none, []⟩

/-- A concrete valid line item used to instantiate theorems. -/
def sampleItem : POSLineItem :=
  ⟨some "0001", none, "Milk", 1, 100, 100, 0, none⟩

/-- A call environment where both paths succeed. -/
def envOk : DualWriteEnv :=
  ⟨.ok (), .ok ⟨some "2024-01-01T00:00:00Z", some "evt-1"⟩⟩

/-- A call environment where the Lakebase (operational) path raises. -/
def envLakebaseDown : DualWriteEnv :=
  ⟨.error "connection refused", .ok ⟨some "2024-01-01T00:00:00Z", some "evt-2"⟩⟩

/-- A call environment where the Zerobus (analytics) path raises. -/
def envZerobusDown : DualWriteEnv :=
  ⟨.ok (), .error "gRPC unavailable"⟩

/-- C1: for every receipt event, if the operational (Lakebase) write fails
for any reason, `write_receipt` raises the `RuntimeError` to the caller
and the analytics (Zerobus) delivery is never attempted in that call —
the analytics client call count is 0. -/
theorem lakebase_failure_raises_and_skips_analytics
    (env : DualWriteEnv) (receipt : POSReceiptEvent) (exc : String)
    (h : env.lakebase_outcome = .error exc) :
    (write_receipt env receipt).1 =
      .error ("Critical path (Lakebase) failed for " ++ receipt.transaction_id
        ++ ": " ++ exc) ∧
    (write_receipt env receipt).2 = 0 := by
  simp [write_receipt, h]

/-- Witness for C1 at a concrete failing operational environment. -/
theorem lakebase_failure_raises_and_skips_analytics_witness :
    (write_receipt envLakebaseDown sampleReceipt).1 =
      .error ("Critical path (Lakebase) failed for "
        ++ sampleReceipt.transaction_id ++ ": " ++ "connection refused") ∧
    (write_receipt envLakebaseDown sampleReceipt).2 = 0 :=
  lakebase_failure_raises_and_skips_analytics envLakebaseDown sampleReceipt
    "connection refused" rfl

/-- C2: for every receipt event whose operational (Lakebase) write
succeeds, `write_receipt` never raises: if the analytics (Zerobus)
delivery raises, it records the failed sub-result and returns a result
with `overall_status = "partial"`; if both paths succeed, it returns
`overall_status = "success"`. -/
theorem lakebase_ok_never_raises
    (env : DualWriteEnv) (receipt : POSReceiptEvent)
    (h : env.lakebase_outcome = .ok ()) :
    ∃ res, (write_receipt env receipt).1 = .ok res ∧
      (∀ exc, env.zerobus_outcome = .error exc →
        res.overall_status = "partial" ∧
        res.zerobus = ⟨"failed", some exc, none, none⟩) ∧
      (∀ zb, env.zerobus_outcome = .ok zb →
        res.overall_status = "success") := by
  cases hz : env.zerobus_outcome with
  | ok zb =>
    refine ⟨⟨receipt.transaction_id, ⟨"success", none, none, none⟩,
      ⟨"success", none, zb.receipts_ack, zb.event_id⟩, "success"⟩, ?_, ?_, ?_⟩
    · simp [write_receipt, h, hz]
    · intro exc hexc
      exact Except.noConfusion hexc
    · intro _ _
      rfl
  | error exc =>
    refine ⟨⟨receipt.transaction_id, ⟨"success", none, none, none⟩,
      ⟨"failed", some exc, none, none⟩, "partial"⟩, ?_, ?_, ?_⟩
    · simp [write_receipt, h, hz]
    · intro exc' hexc
      injection hexc with he
      subst he
      exact ⟨rfl, rfl⟩
    · intro zb hzb
      exact Except.noConfusion hzb

/-- Witness for C2 at a concrete environment where the analytics delivery
raises: the call returns (does not raise) with a partial outcome. -/
theorem lakebase_ok_never_raises_witness :
    ∃ res, (write_receipt envZerobusDown sampleReceipt).1 = .ok res ∧
      res.overall_status = "partial" ∧ res.zerobus.status = "failed" := by
  obtain ⟨res, hres, hp, _⟩ :=
    lakebase_ok_never_raises envZerobusDown sampleReceipt rfl
  obtain ⟨h1, h2⟩ := hp "gRPC unavailable" rfl
  exact ⟨res, hres, h1, by rw [h2]⟩

/-- C3: the operational-store write is idempotent on `transaction_id`:
submitting a receipt with the same `transaction_id` twice leaves exactly
one row for that key in the operational store — the duplicate submission
is absorbed silently as a no-op and does not modify the row written by
the first submission. -/
theorem lakebase_insert_idempotent
    (store : List ReceiptRow) (r r2 : POSReceiptEvent)
    (hkey : r2.transaction_id = r.transaction_id)
    (hfresh : ∀ row ∈ store, row.transaction_id ≠ r.transaction_id) :
    write_to_lakebase (write_to_lakebase store r) r2 = write_to_lakebase store r ∧
    ((write_to_lakebase store r).filter
      (fun row => row.transaction_id == r.transaction_id)).length = 1 ∧
    (write_to_lakebase store r).filter
      (fun row => row.transaction_id == r.transaction_id) = [rowOf r] := by
  have hany : store.any (fun row => row.transaction_id == r.transaction_id) = false := by
    rw [List.any_eq_false]
    intro row hrow
    simp only [beq_iff_eq]
    exact hfresh row hrow
  have h1 : write_to_lakebase store r = store ++ [rowOf r] := by
    simp [write_to_lakebase, hany]
  have hfilter : store.filter (fun row => row.transaction_id == r.transaction_id) = [] := by
    rw [List.filter_eq_nil_iff]
    intro row hrow
    simp only [beq_iff_eq]
    exact hfresh row hrow
  refine ⟨?_, ?_, ?_⟩
  · have hsecond : write_to_lakebase (store ++ [rowOf r]) r2 = store ++ [rowOf r] := by
      have hmem : ((store ++ [rowOf r]).any
          (fun row => row.transaction_id == r2.transaction_id)) = true := by
        rw [List.any_eq_true]
        exact ⟨rowOf r, by simp, by simp [rowOf, hkey]⟩
      simp [write_to_lakebase, hmem]
    rw [h1]
    exact hsecond
  · rw [h1, List.filter_append, hfilter]
    simp [rowOf]
  · rw [h1, List.filter_append, hfilter]
    simp [rowOf]

/-- Witness for C3: a concrete duplicate submission into an empty store. -/
theorem lakebase_insert_idempotent_witness :
    write_to_lakebase (write_to_lakebase [] sampleReceipt) sampleReceipt =
      write_to_lakebase [] sampleReceipt ∧
    ((write_to_lakebase [] sampleReceipt).filter
      (fun row => row.transaction_id == sampleReceipt.transaction_id)).length = 1 ∧
    (write_to_lakebase [] sampleReceipt).filter
      (fun row => row.transaction_id == sampleReceipt.transaction_id) =
      [rowOf sampleReceipt] :=
  lakebase_insert_idempotent [] sampleReceipt sampleReceipt rfl (by simp)

/-- C4: `write_batch` returns a list of the same length as its input,
aligned with input order; the i-th entry is exactly the outcome of
`write_receipt` on the i-th item (result on success, the raised exception
on failure), so one item's fatal failure never aborts or changes the
outcome of any other item — illustrated by a concrete 3-item batch whose
middle item fails fatally while both siblings succeed. -/
theorem batch_aligned_and_isolated
    (items : List (DualWriteEnv × POSReceiptEvent)) :
    (write_batch items).length = items.length ∧
    (∀ i : Nat, (write_batch items)[i]? =
      (items[i]?.map (fun p => (write_receipt p.1 p.2).1))) ∧
    (∃ r1 r3 msg,
      write_batch [(envOk, sampleReceipt), (envLakebaseDown, sampleReceipt2),
        (envOk, sampleReceipt3)] = [.ok r1, .error msg, .ok r3]) := by
  refine ⟨by simp [write_batch], ?_, ?_⟩
  · intro i
    simp [write_batch, List.getElem?_map]
  · exact ⟨_, _, _, rfl⟩

/-- C5: a receipt header constructed with all of `subtotal_cents`,
`tax_cents` and `total_cents` provided succeeds only when
`|subtotal_cents + tax_cents - total_cents| ≤ 5`, and fails with a
validation error when the difference exceeds 5; in particular
`{total_cents: 1862, subtotal_cents: 1757, tax_cents: 105}` passes
construction and `{total_cents: 2000, subtotal_cents: 1000, tax_cents: 80}`
fails it. -/
theorem receipt_total_within_tolerance
    (tid sid sname : String) (pt ci cu : Option String) (ts a b total : Int)
    (tt card : Option String) (its : List POSLineItem) :
    (∀ e, mkPOSReceiptEvent tid sid sname pt ci cu ts (some a) (some b)
        total tt card its = .ok e → (a + b - total).natAbs ≤ 5) ∧
    ((a + b - total).natAbs > 5 →
      ∃ msg, mkPOSReceiptEvent tid sid sname pt ci cu ts (some a) (some b)
        total tt card its = .error msg) ∧
    (∃ e, mkPOSReceiptEvent "TXN-1" "STORE-247" "East Liberty" none none none
        0 (some 1757) (some 105) 1862 none none [] = .ok e) ∧
    (∃ msg, mkPOSReceiptEvent "TXN-2" "STORE-247" "East Liberty" none none none
        0 (some 1000) (some 80) 2000 none none [] = .error msg) := by
  refine ⟨?_, ?_, ⟨_, rfl⟩, ⟨_, rfl⟩⟩
  · intro e he
    simp only [mkPOSReceiptEvent, validate_total] at he
    split at he
    · exact Except.noConfusion he
    split at he
    · exact Except.noConfusion he
    split at he
    · exact Except.noConfusion he
    split at he
    · exact Except.noConfusion he
    split at he
    · exact Except.noConfusion he
    · next h => omega
  · intro hgt
    simp only [mkPOSReceiptEvent, validate_total]
    repeat' split
    all_goals exact ⟨_, rfl⟩

/-- Witness for C5 at a concrete over-tolerance input (difference 920 > 5). -/
theorem receipt_total_within_tolerance_witness :
    ∃ msg, mkPOSReceiptEvent "TXN-2" "STORE-247" "East Liberty" none none none
      0 (some 1000) (some 80) 2000 none none [] = .error msg :=
  (receipt_total_within_tolerance "TXN-2" "STORE-247" "East Liberty"
    none none none 0 1000 80 2000 none none []).2.1 (by norm_num)

/-- C6: line-item construction fails with a validation error whenever both
product identifiers (`upc` and `sku`) are missing or the quantity is
negative; consequently every successfully constructed line item has at
least one non-null identifier and a quantity ≥ 0. -/
theorem line_item_identifier_and_quantity
    (upc sku : Option String) (d : String) (q : Rat) (u e disc : Int)
    (dep : Option String) :
    ((upc = none ∧ sku = none) ∨ q < 0 →
      ∃ msg, mkPOSLineItem upc sku d q u e disc dep = .error msg) ∧
    (∀ it, mkPOSLineItem upc sku d q u e disc dep = .ok it →
      (it.upc ≠ none ∨ it.sku ≠ none) ∧ 0 ≤ it.quantity) := by
  constructor
  · rintro (⟨h1, h2⟩ | hq)
    · subst h1; subst h2
      simp [mkPOSLineItem, pyTruthy]
      repeat' split
      all_goals exact ⟨_, rfl⟩
    · simp only [mkPOSLineItem]
      rw [if_pos hq]
      exact ⟨_, rfl⟩
  · intro it hit
    simp only [mkPOSLineItem] at hit
    split at hit
    · exact Except.noConfusion hit
    split at hit
    · exact Except.noConfusion hit
    split at hit
    · exact Except.noConfusion hit
    split at hit
    · exact Except.noConfusion hit
    split at hit
    · exact Except.noConfusion hit
    · rename_i h1 h2 h3 h4 h5
      injection hit with hit'
      subst hit'
      constructor
      · simp only [Bool.and_eq_true, Bool.not_eq_true'] at h5
        rcases Bool.eq_false_or_eq_true (pyTruthy upc) with hu | hu
        · left
          intro hn
          have hn' : upc = none := hn
          rw [hn'] at hu
          exact Bool.noConfusion hu
        · have hs : pyTruthy sku = true := by
            rcases Bool.eq_false_or_eq_true (pyTruthy sku) with hs | hs
            · exact hs
            · exact absurd ⟨hu, hs⟩ h5
          right
          intro hn
          have hn' : sku = none := hn
          rw [hn'] at hs
          exact Bool.noConfusion hs
      · exact not_lt.mp h1

/-- Witness for C6: both identifiers absent on an otherwise valid item. -/
theorem line_item_identifier_and_quantity_witness :
    ∃ msg, mkPOSLineItem none none "Milk" 1 100 100 0 none = .error msg :=
  (line_item_identifier_and_quantity none none "Milk" 1 100 100 0 none).1
    (Or.inl ⟨rfl, rfl⟩)

/-- C7: card-suffix normalization maps every input to either exactly 4
digits or null (it keeps the trailing 4 of the input's digits and returns
null when fewer than 4 digits remain); in particular `"****4532"`
normalizes to `"4532"` and `"123"` normalizes to null. -/
theorem strip_card_last4_shape (v : Option String) :
    (strip_card_last4 v = none ∨
      ∃ t, strip_card_last4 v = some t ∧ t.length = 4 ∧
        t.toList.all Char.isDigit = true) ∧
    strip_card_last4 (some "****4532") = some "4532" ∧
    strip_card_last4 (some "123") = none := by
  refine ⟨?_, by decide, by decide⟩
  match v with
  | none => exact Or.inl rfl
  | some s =>
    simp only [strip_card_last4]
    by_cases h : ((pyStrip s.toList).filter Char.isDigit).length ≥ 4
    · rw [if_pos h]
      refine Or.inr ⟨_, rfl, ?_, ?_⟩
      · show (((pyStrip s.toList).filter Char.isDigit).drop
          (((pyStrip s.toList).filter Char.isDigit).length - 4)).length = 4
        rw [List.length_drop]
        omega
      · rw [List.all_eq_true]
        intro c hc
        exact List.of_mem_filter (List.drop_subset _ _ hc)
    · rw [if_neg h]
      exact Or.inl rfl

/-- Helper: `listMin` of a list containing `x` is defined and at most `x`. -/
theorem listMin_le_of_mem {l : List Int} {x : Int} (hx : x ∈ l) :
    ∃ m, listMin l = some m ∧ m ≤ x := by
  induction l with
  | nil => cases hx
  | cons y ys ih =>
    rcases List.mem_cons.mp hx with h | h
    · subst h
      cases hys : listMin ys with
      | none => exact ⟨x, by simp [listMin, hys], le_refl x⟩
      | some m => exact ⟨min x m, by simp [listMin, hys], min_le_left x m⟩
    · obtain ⟨m, hm, hle⟩ := ih h
      exact ⟨min y m, by simp [listMin, hm], le_trans (min_le_right y m) hle⟩

/-- Helper: `listMax` of a list containing `x` is defined and at least `x`. -/
theorem le_listMax_of_mem {l : List Int} {x : Int} (hx : x ∈ l) :
    ∃ m, listMax l = some m ∧ x ≤ m := by
  induction l with
  | nil => cases hx
  | cons y ys ih =>
    rcases List.mem_cons.mp hx with h | h
    · subst h
      cases hys : listMax ys with
      | none => exact ⟨x, by simp [listMax, hys], le_refl x⟩
      | some m => exact ⟨max x m, by simp [listMax, hys], le_max_left x m⟩
    · obtain ⟨m, hm, hle⟩ := ih h
      exact ⟨max y m, by simp [listMax, hm], le_trans hle (le_max_right y m)⟩

/-- C8: the reconciliation scan left-anti-joins the operational store
against the analytics copy on `transaction_id`, restricted to the
lookback window: an in-window operational transaction missing from the
analytics copy forces `gap_count ≥ 1` with
`oldest_missing_ts ≤ its timestamp ≤ newest_missing_ts`; if every
in-window operational transaction is present in the analytics copy,
`gap_count = 0`.  (The source defaults `lookback_hours` to 24.) -/
theorem reconcile_gaps_anti_join
    (now lb : Int) (rt : List RtRow) (rl : List String) :
    (∀ T1 : RtRow, T1 ∈ rt → now - lb * 3600 ≤ T1.transaction_ts →
      T1.transaction_id ∉ rl →
      1 ≤ (reconcile_gaps now rt rl lb).gap_count ∧
      (∃ o, (reconcile_gaps now rt rl lb).oldest_missing_ts = some o ∧
        o ≤ T1.transaction_ts) ∧
      (∃ n2, (reconcile_gaps now rt rl lb).newest_missing_ts = some n2 ∧
        T1.transaction_ts ≤ n2)) ∧
    ((∀ r ∈ rt, now - lb * 3600 ≤ r.transaction_ts → r.transaction_id ∈ rl) →
      (reconcile_gaps now rt rl lb).gap_count = 0) := by
  constructor
  · intro T1 hmem hwin hnot
    have hgap : T1 ∈ gapRows now lb rt rl := by
      rw [gapRows, List.mem_filter]
      exact ⟨hmem, by simp [hwin, hnot]⟩
    refine ⟨?_, ?_, ?_⟩
    · simp only [reconcile_gaps]
      exact List.length_pos.mpr (List.ne_nil_of_mem hgap)
    · have hts : T1.transaction_ts ∈
          (gapRows now lb rt rl).map (fun r => r.transaction_ts) :=
        List.mem_map_of_mem _ hgap
      obtain ⟨m, hm, hle⟩ := listMin_le_of_mem hts
      exact ⟨m, by simp only [reconcile_gaps]; exact hm, hle⟩
    · have hts : T1.transaction_ts ∈
          (gapRows now lb rt rl).map (fun r => r.transaction_ts) :=
        List.mem_map_of_mem _ hgap
      obtain ⟨m, hm, hle⟩ := le_listMax_of_mem hts
      exact ⟨m, by simp only [reconcile_gaps]; exact hm, hle⟩
  · intro hall
    have hempty : gapRows now lb rt rl = [] := by
      rw [gapRows, List.filter_eq_nil_iff]
      intro r hr
      simp only [Bool.and_eq_true, decide_eq_true_eq, Bool.not_eq_true']
      rintro ⟨hwin, hnc⟩
      exact absurd (hall r hr hwin) (by simpa using hnc)
    simp [reconcile_gaps, hempty]

/-- Witness for C8: one in-window operational row, empty analytics copy. -/
theorem reconcile_gaps_anti_join_witness :
    1 ≤ (reconcile_gaps 1000000 [⟨"T1", 999999⟩] [] 24).gap_count ∧
    (∃ o, (reconcile_gaps 1000000 [⟨"T1", 999999⟩] [] 24).oldest_missing_ts =
      some o ∧ o ≤ (999999 : Int)) ∧
    (∃ n2, (reconcile_gaps 1000000 [⟨"T1", 999999⟩] [] 24).newest_missing_ts =
      some n2 ∧ (999999 : Int) ≤ n2) :=
  (reconcile_gaps_anti_join 1000000 24 [⟨"T1", 999999⟩] []).1
    ⟨"T1", 999999⟩ (by simp) (by norm_num) (by simp)

/-- Counterexample to C9: the source declares `quantity: float` (not an
integer type), so a line item with the fractional quantity 3/2 is accepted
by construction — refuting the claim that every accepted line item has an
integer quantity. -/
theorem fractional_quantity_accepted :
    (mkPOSLineItem (some "0001") none "Bananas" (3/2 : Rat) 100 150 0
        none).toOption.map POSLineItem.quantity = some (3/2 : Rat) ∧
    ((3/2 : Rat)).den ≠ 1 := by
  constructor
  · simp [mkPOSLineItem, pyTruthy, String.isEmpty_iff]
    norm_num
    exact ⟨_, rfl, rfl⟩
  · norm_num

/-- C9 (amended): for every accepted line item the unit amount, extended
amount and discount are integer values (integer-typed cents, denominator 1
as rationals) and the quantity is ≥ 0, but the quantity is declared
floating-point and may be non-integral; no monetary value in the event
model is floating point. -/
theorem accepted_item_integer_money_nonneg_quantity
    (upc sku : Option String) (d : String) (q : Rat) (u e disc : Int)
    (dep : Option String) (it : POSLineItem)
    (h : mkPOSLineItem upc sku d q u e disc dep = .ok it) :
    ((it.unit_price_cents : Rat)).den = 1 ∧
    ((it.extended_cents : Rat)).den = 1 ∧
    ((it.discount_cents : Rat)).den = 1 ∧ 0 ≤ it.quantity := by
  refine ⟨Rat.den_intCast _, Rat.den_intCast _, Rat.den_intCast _, ?_⟩
  simp only [mkPOSLineItem] at h
  split at h
  · exact Except.noConfusion h
  split at h
  · exact Except.noConfusion h
  split at h
  · exact Except.noConfusion h
  split at h
  · exact Except.noConfusion h
  split at h
  · exact Except.noConfusion h
  · rename_i h1 h2 h3 h4 h5
    injection h with h'
    subst h'
    exact not_lt.mp h1

/-- Witness for the amended C9 at a concrete accepted line item. -/
theorem accepted_item_integer_money_nonneg_quantity_witness :
    ((sampleItem.unit_price_cents : Rat)).den = 1 ∧
    ((sampleItem.extended_cents : Rat)).den = 1 ∧
    ((sampleItem.discount_cents : Rat)).den = 1 ∧ 0 ≤ sampleItem.quantity :=
  accepted_item_integer_money_nonneg_quantity (some "0001") none "Milk" 1
    100 100 0 none sampleItem rfl

/-- C10: a line item whose `upc` and `sku` are both empty strings is
rejected by construction exactly like one whose identifiers are both
absent — identifier presence is decided by truthiness, so a non-null
empty-string identifier counts as missing. -/
theorem empty_string_identifiers_rejected
    (d : String) (q : Rat) (u e disc : Int) (dep : Option String) :
    mkPOSLineItem (some "") (some "") d q u e disc dep =
      mkPOSLineItem none none d q u e disc dep ∧
    mkPOSLineItem (some "") (some "") "Milk" 1 100 100 0 none =
      .error "Each line item must have at least a upc or sku" ∧
    mkPOSLineItem none none "Milk" 1 100 100 0 none =
      .error "Each line item must have at least a upc or sku" := by
  refine ⟨?_, rfl, rfl⟩
  simp [mkPOSLineItem, pyTruthy, String.isEmpty_iff]
